import Mathlib

/-!
Shallow embedding of the Remote Backup Transfer core of
`backup_telegram_bot` (files `config.py` and `backup.py`), together with
theorems settling the spec claims about it.

Conventions of the embedding:
* Python optional-string settings (`os.environ.get` results) are modelled as
  plain `String`, with `""` standing for both `None` and the empty string:
  the code only ever distinguishes them through truthiness (`not value`),
  which conflates the two.
* The remote side (SMB server) and the local filesystem are modelled by an
  `Env` of outcomes for each external call, and `backup_file` is given a
  trace semantics: it returns its boolean result together with the list of
  external calls it performed, in order.
* Exceptions are explicit: the body of the outer `try` is a function into
  `Except`, and the outer `except Exception` handler is an explicit `match`.
-/

namespace BackupBot

/-! ### Configuration (`config.py`) and `BackupManager.__init__` / `_check_settings` -/

/-- The SMB-related configuration surface of `config.py`.  `smb_server_name`
defaults to `""` and `backup_directory` to `"/"` in the source; here every
field is just carried as data. -/
structure Config where
  smb_username : String
  smb_password : String
  smb_server : String
  smb_server_name : String
  smb_share : String
  smb_port : Nat
  backup_directory : String
deriving Repr, DecidableEq

/-- Python truthiness test `not value` on an optional string setting:
true exactly for `None` / `""`, both modelled as `""`. -/
def falsy (s : String) : Bool := s = ""

/-- The `missing` list of `BackupManager._check_settings`: the names of the
required settings whose values are falsy, in the dictionary's order. -/
def requiredMissing (c : Config) : List String :=
  (if falsy c.smb_username then ["SMB_USERNAME"] else []) ++
  (if falsy c.smb_password then ["SMB_PASSWORD"] else []) ++
  (if falsy c.smb_server then ["SMB_SERVER"] else []) ++
  (if falsy c.smb_share then ["SMB_SHARE"] else [])

/-- `BackupManager._check_settings`: raises `ValueError` (modelled as
`Except.error` carrying the message) when any required setting is missing. -/
def checkSettings (c : Config) : Except String Unit :=
  if requiredMissing c = [] then .ok ()
  else .error ("Missing required SMB settings: "
      ++ String.intercalate ", " (requiredMissing c))

/-- The fields `BackupManager.__init__` copies onto `self`. -/
structure BackupManager where
  smb_username : String
  smb_password : String
  smb_server : String
  smb_server_name : String
  smb_share : String
  smb_port : Nat
  backup_directory : String
deriving Repr, DecidableEq

/-- `BackupManager.__init__`: copy the settings, then `_check_settings`;
construction fails (the `ValueError` propagates) exactly when the check
raises.  A `BackupManager` value therefore only exists after a successful
check, so the error is raised at construction time, before any transfer. -/
def mkBackupManager (c : Config) : Except String BackupManager :=
  match checkSettings c with
  | .error e => .error e
  | .ok _ => .ok ⟨c.smb_username, c.smb_password, c.smb_server,
      c.smb_server_name, c.smb_share, c.smb_port, c.backup_directory⟩

/-! ### String helpers: `str.rstrip('/')` and `str.rsplit('.', 1)` -/

/-- Python `s.rstrip('/')`: remove every trailing `'/'`. -/
def rstripSlash (s : String) : String :=
  String.mk ((s.data.reverse.dropWhile (fun c => c = '/')).reverse)

/-- Split a character list at the first occurrence of `sep`:
`some (before, after)` when `sep` occurs, `none` otherwise. -/
def breakAtFirst (sep : Char) : List Char → Option (List Char × List Char)
  | [] => none
  | c :: cs =>
    if c = sep then some ([], cs)
    else
      match breakAtFirst sep cs with
      | none => none
      | some (a, b) => some (c :: a, b)

/-- Python `s.rsplit('.', 1)`: split at the last `'.'` when there is one
(giving a two-element list), otherwise return `[s]`. -/
def rsplitOneDot (s : String) : List String :=
  match breakAtFirst '.' s.data.reverse with
  | none => [s]
  | some (revExt, revStem) => [String.mk revStem.reverse, String.mk revExt.reverse]

/-! ### `datetime.now().strftime("_%Y%m%d_%H%M%S")` -/

/-- The fields of a `datetime` value that the timestamp format uses. -/
structure DateTime where
  year : Nat
  month : Nat
  day : Nat
  hour : Nat
  minute : Nat
  second : Nat
deriving Repr, DecidableEq

/-- The ranges `datetime.now()` guarantees (`datetime.MAXYEAR = 9999`);
the zero-padded rendering below is faithful exactly on this range. -/
def DateTime.Valid (d : DateTime) : Prop :=
  d.year ≤ 9999 ∧ 1 ≤ d.month ∧ d.month ≤ 12 ∧ 1 ≤ d.day ∧ d.day ≤ 31
    ∧ d.hour ≤ 23 ∧ d.minute ≤ 59 ∧ d.second ≤ 59

instance (d : DateTime) : Decidable d.Valid := by
  unfold DateTime.Valid; infer_instance

/-- The decimal digit character for `n % 10`. -/
def digitChar (n : Nat) : Char := Char.ofNat (48 + n % 10)

/-- Two-digit zero-padded decimal rendering (`%m`, `%d`, `%H`, `%M`, `%S`). -/
def pad2 (n : Nat) : String :=
  String.mk [digitChar (n / 10), digitChar n]

/-- Four-digit zero-padded decimal rendering (`%Y` for years up to 9999). -/
def pad4 (n : Nat) : String :=
  String.mk [digitChar (n / 1000), digitChar (n / 100), digitChar (n / 10), digitChar n]

/-- The `%Y%m%d` date part of the timestamp. -/
def tsDate (d : DateTime) : String := pad4 d.year ++ pad2 d.month ++ pad2 d.day

/-- The `%H%M%S` time part of the timestamp. -/
def tsTime (d : DateTime) : String := pad2 d.hour ++ pad2 d.minute ++ pad2 d.second

/-- `datetime.now().strftime("_%Y%m%d_%H%M%S")`: the timestamp suffix
inserted on a filename collision. -/
def strftimeTs (d : DateTime) : String := "_" ++ tsDate d ++ "_" ++ tsTime d

/-! ### The collision rename (`backup.py` lines 110-121) -/

/-- Lines 110-119 of `backup_file`: `rsplit('.', 1)`; with an extension the
timestamp goes before the final `"." + ext`, otherwise it is appended.
`rsplitOneDot` returns one or two elements, so the catch-all branch is the
`len(name_parts) == 1` case. -/
def resolveCollision (original_filename timestamp : String) : String :=
  match rsplitOneDot original_filename with
  | [filename_without_ext, ext] => filename_without_ext ++ timestamp ++ "." ++ ext
  | _ => original_filename ++ timestamp

/-- Line 103 (and 121): `f"..."` with the backup directory stripped of
trailing slashes, a `"/"`, and the filename. -/
def candidatePath (backup_directory filename : String) : String :=
  rstripSlash backup_directory ++ "/" ++ filename

/-! ### Trace semantics of `BackupManager.backup_file` -/

/-- The external calls `backup_file` can make, recorded in order. -/
inductive Event where
  | createDirectory (share dir : String)
  | getAttributes (share path : String)
  | openLocal (path : String)
  | storeFile (share path : String)
  | close
deriving Repr, DecidableEq, BEq

/-- The attributes object `getAttributes` returns (pysmb's `SharedFile`),
abstracted: the code only tests its truthiness. -/
structure FileInfo where
deriving Repr, DecidableEq

/-- Python truthiness of a `SharedFile` instance: such objects define
neither `__bool__` nor `__len__`, so they are always truthy. -/
def pyTruthy (_ : FileInfo) : Bool := true

/-- Outcomes of the external calls during one `backup_file` invocation.
`existsAt` is the ground truth of which remote paths hold an object;
`probeRaises` makes the `getAttributes` call itself fail (transport error),
independently of the ground truth. -/
structure Env where
  /-- `connect()` returns a session rather than `None`. -/
  connectOk : Bool
  /-- `createDirectory` raises (swallowed by the inner `try`). -/
  createDirRaises : Bool
  /-- The `getAttributes` probe itself errors. -/
  probeRaises : Bool
  /-- Ground truth: an object exists at the given remote path. -/
  existsAt : String → Bool
  /-- `open(file_path, "rb")` raises. -/
  openRaises : Bool
  /-- `storeFile` raises. -/
  storeRaises : Bool
  /-- `datetime.now()`. -/
  now : DateTime

/-- The `conn.getAttributes` call of line 107: raises when the probe itself
errors, returns the attributes when the object exists, and raises
(`OperationFailure`) when it does not — the two failure causes are
indistinguishable to the caller. -/
def getAttributesSem (env : Env) (path : String) : Except Unit FileInfo :=
  if env.probeRaises then .error ()
  else if env.existsAt path then .ok ⟨⟩
  else .error ()

/-- Lines 102-124: the upload path after the collision check.  On a
successful probe returning a truthy object, the path is recomputed from the
timestamped filename; on a probe error the original candidate is kept. -/
def finalUploadPath (m : BackupManager) (env : Env) (original_filename : String) :
    String :=
  let upload_path := candidatePath m.backup_directory original_filename
  match getAttributesSem env upload_path with
  | .ok file_info =>
    if pyTruthy file_info then
      candidatePath m.backup_directory
        (resolveCollision original_filename (strftimeTs env.now))
    else upload_path
  | .error _ => upload_path

/-- The body of the outer `try` (lines 94-133), given that a session was
obtained.  `.ok evs` is the `return True` path with its trace (including
the `close` of line 132); `.error evs` means an exception escaped the body
with trace `evs` so far.  The two inner `try ... except: pass` blocks
(directory creation, probe) swallow their exceptions, so only the local
`open` and `storeFile` can abort the body. -/
def backupFileBody (m : BackupManager) (env : Env)
    (file_path original_filename : String) : Except (List Event) (List Event) :=
  -- line 97: create the backup directory; the exception, if any, is swallowed
  let evs0 := [Event.createDirectory m.smb_share (rstripSlash m.backup_directory)]
  -- line 103: candidate path; lines 106-124: the probe and possible rename
  let upload_path := candidatePath m.backup_directory original_filename
  let evs1 := evs0 ++ [Event.getAttributes m.smb_share upload_path]
  let final_path := finalUploadPath m env original_filename
  -- line 127: open the local file
  if env.openRaises then .error (evs1 ++ [Event.openLocal file_path])
  else
    -- line 129: upload
    let evs2 := evs1 ++ [Event.openLocal file_path,
      Event.storeFile m.smb_share final_path]
    if env.storeRaises then .error evs2
    else .ok (evs2 ++ [Event.close])

/-- `BackupManager.backup_file`: result and trace.  Line 90-92: a failed
`connect` returns `False` with no further calls.  The outer
`except Exception` (lines 135-139) turns any escaped exception into a
`close` plus `return False`. -/
def backupFile (m : BackupManager) (env : Env)
    (file_path original_filename : String) : Bool × List Event :=
  if env.connectOk then
    match backupFileBody m env file_path original_filename with
    | .ok evs => (true, evs)
    | .error evs => (false, evs ++ [Event.close])
  else (false, [])

/-- Discriminator for probe events. -/
def isProbe : Event → Bool
  | .getAttributes _ _ => true
  | _ => false

/-- Discriminator for session-close events. -/
def isClose : Event → Bool
  | .close => true
  | _ => false

/-! ### Concrete fixtures used by counterexamples and witnesses -/

/-- A manager with backup directory `/backups`. -/
def sampleManager : BackupManager :=
  ⟨"user", "pass", "server.local", "", "share", 445, "/backups"⟩

/-- A manager with the default backup directory `/`. -/
def rootManager : BackupManager :=
  ⟨"user", "pass", "server.local", "", "share", 445, "/"⟩

/-- A fixed clock value. -/
def dt0 : DateTime := ⟨2024, 1, 1, 12, 0, 0⟩

/-- A configuration whose four checked settings are present but whose
backup directory is empty (as from `BACKUP_DIRECTORY=` in the `.env`). -/
def cfgEmptyDir : Config := ⟨"user", "pass", "server.local", "", "share", 445, ""⟩

/-- A remote object exists at `/backups/report.pdf`, but the probe itself
errors (e.g. a transient transport failure). -/
def envProbeError : Env :=
  ⟨true, false, true, fun p => p == "/backups/report.pdf", false, false, dt0⟩

/-- A remote object exists at `/backups/report.pdf` and the probe works. -/
def envProbeOk : Env :=
  ⟨true, false, false, fun p => p == "/backups/report.pdf", false, false, dt0⟩

/-- No remote object exists anywhere; everything succeeds. -/
def envNoCollision : Env :=
  ⟨true, false, false, fun _ => false, false, false, dt0⟩

/-- `connect()` fails (returns `None`). -/
def envNoConnect : Env :=
  ⟨false, false, false, fun _ => false, false, false, dt0⟩

/-! ### Lemmas about the string helpers -/

theorem breakAtFirst_eq_none_of_not_mem {sep : Char} :
    ∀ {l : List Char}, sep ∉ l → breakAtFirst sep l = none := by
  intro l
  induction l with
  | nil => intro _; rfl
  | cons c cs ih =>
    intro h
    have hc : ¬c = sep := fun e => h (by simp [e])
    rw [breakAtFirst, if_neg hc, ih (fun hm => h (List.mem_cons_of_mem _ hm))]

theorem breakAtFirst_append {sep : Char} :
    ∀ (xs : List Char), sep ∉ xs → ∀ ys : List Char,
      breakAtFirst sep (xs ++ sep :: ys) = some (xs, ys) := by
  intro xs
  induction xs with
  | nil => intro _ ys; simp [breakAtFirst]
  | cons c cs ih =>
    intro h ys
    have hc : ¬c = sep := fun e => h (by simp [e])
    rw [List.cons_append, breakAtFirst, if_neg hc,
      ih (fun hm => h (List.mem_cons_of_mem _ hm)) ys]

theorem breakAtFirst_eq_some {sep : Char} :
    ∀ {l a b : List Char}, breakAtFirst sep l = some (a, b) → l = a ++ sep :: b := by
  intro l
  induction l with
  | nil => intro a b h; simp [breakAtFirst] at h
  | cons c cs ih =>
    intro a b h
    by_cases hc : c = sep
    · rw [breakAtFirst, if_pos hc] at h
      obtain ⟨rfl, rfl⟩ := by simpa using h
      simp [hc]
    · rw [breakAtFirst, if_neg hc] at h
      cases hcs : breakAtFirst sep cs with
      | none => rw [hcs] at h; simp at h
      | some p =>
        obtain ⟨a', b'⟩ := p
        rw [hcs] at h
        obtain ⟨rfl, rfl⟩ := by simpa using h
        simp [ih hcs]

theorem rsplitOneDot_of_not_mem {s : String} (h : '.' ∉ s.data) :
    rsplitOneDot s = [s] := by
  unfold rsplitOneDot
  rw [breakAtFirst_eq_none_of_not_mem (by simpa using h)]

theorem data_append_dot (a b : String) :
    (a ++ "." ++ b).data = a.data ++ '.' :: b.data := by
  have hdot : ("." : String).data = ['.'] := rfl
  simp [String.data_append, hdot]

theorem rsplitOneDot_append_dot (a b : String) (hb : '.' ∉ b.data) :
    rsplitOneDot (a ++ "." ++ b) = [a, b] := by
  unfold rsplitOneDot
  have hrev : (a ++ "." ++ b).data.reverse = b.data.reverse ++ '.' :: a.data.reverse := by
    rw [data_append_dot]; simp
  rw [hrev, breakAtFirst_append _ (by simpa using hb) _]
  simp

theorem resolveCollision_split (a b t : String) (hb : '.' ∉ b.data) :
    resolveCollision (a ++ "." ++ b) t = a ++ t ++ "." ++ b := by
  unfold resolveCollision
  rw [rsplitOneDot_append_dot a b hb]

theorem resolveCollision_of_not_mem (s t : String) (h : '.' ∉ s.data) :
    resolveCollision s t = s ++ t := by
  unfold resolveCollision
  rw [rsplitOneDot_of_not_mem h]

theorem resolveCollision_length (s t : String) :
    (resolveCollision s t).length = s.length + t.length := by
  unfold resolveCollision rsplitOneDot
  cases hb : breakAtFirst '.' s.data.reverse with
  | none => simp [String.length_append]
  | some p =>
    obtain ⟨revExt, revStem⟩ := p
    have hdec : s.data.reverse = revExt ++ '.' :: revStem := breakAtFirst_eq_some hb
    have hlen : s.data.length = revExt.length + 1 + revStem.length := by
      have h := congrArg List.length hdec
      rw [List.length_reverse, List.length_append, List.length_cons] at h
      omega
    have hmk1 : (String.mk revStem.reverse).length = revStem.length := by
      show revStem.reverse.length = _
      rw [List.length_reverse]
    have hmk2 : (String.mk revExt.reverse).length = revExt.length := by
      show revExt.reverse.length = _
      rw [List.length_reverse]
    have hdotlen : ("." : String).length = 1 := rfl
    have hslen : s.length = s.data.length := rfl
    simp only [String.length_append, hmk1, hmk2, hdotlen, hslen, hlen]
    omega

theorem pad2_length (n : Nat) : (pad2 n).length = 2 := rfl

theorem pad4_length (n : Nat) : (pad4 n).length = 4 := rfl

theorem tsDate_length (d : DateTime) : (tsDate d).length = 8 := by
  simp [tsDate, String.length_append, pad2_length, pad4_length]

theorem tsTime_length (d : DateTime) : (tsTime d).length = 6 := by
  simp [tsTime, String.length_append, pad2_length]

theorem strftimeTs_length (d : DateTime) : (strftimeTs d).length = 16 := by
  have h1 : ("_" : String).length = 1 := rfl
  simp [strftimeTs, String.length_append, h1, tsDate_length, tsTime_length]

theorem strftimeTs_eq (d : DateTime) :
    strftimeTs d = "_" ++ (tsDate d ++ "_" ++ tsTime d) := by
  simp [strftimeTs, String.append_assoc]

theorem digitChar_isDigit (n : Nat) : (digitChar n).isDigit = true := by
  have h : n % 10 < 10 := Nat.mod_lt _ (by omega)
  unfold digitChar
  set k := n % 10 with hk
  interval_cases k <;> decide

theorem pad2_digits (n : Nat) : ∀ c ∈ (pad2 n).data, c.isDigit = true := by
  intro c hc
  have h2 : (pad2 n).data = [digitChar (n / 10), digitChar n] := rfl
  rw [h2] at hc
  simp at hc
  rcases hc with rfl | rfl <;> exact digitChar_isDigit _

theorem pad4_digits (n : Nat) : ∀ c ∈ (pad4 n).data, c.isDigit = true := by
  intro c hc
  have h4 : (pad4 n).data
      = [digitChar (n / 1000), digitChar (n / 100), digitChar (n / 10), digitChar n] := rfl
  rw [h4] at hc
  simp at hc
  rcases hc with rfl | rfl | rfl | rfl <;> exact digitChar_isDigit _

theorem tsDate_digits (d : DateTime) : ∀ c ∈ (tsDate d).data, c.isDigit = true := by
  intro c hc
  simp [tsDate, String.data_append] at hc
  rcases hc with h | h | h
  · exact pad4_digits _ _ (by simpa using h)
  · exact pad2_digits _ _ (by simpa using h)
  · exact pad2_digits _ _ (by simpa using h)

theorem tsTime_digits (d : DateTime) : ∀ c ∈ (tsTime d).data, c.isDigit = true := by
  intro c hc
  simp [tsTime, String.data_append] at hc
  rcases hc with h | h | h
  · exact pad2_digits _ _ (by simpa using h)
  · exact pad2_digits _ _ (by simpa using h)
  · exact pad2_digits _ _ (by simpa using h)

/-- The final upload path is the candidate or its timestamped rename. -/
theorem finalUploadPath_cases (m : BackupManager) (env : Env) (fn : String) :
    finalUploadPath m env fn = candidatePath m.backup_directory fn
      ∨ finalUploadPath m env fn
        = candidatePath m.backup_directory (resolveCollision fn (strftimeTs env.now)) := by
  cases hga : getAttributesSem env (candidatePath m.backup_directory fn) with
  | ok fi => right; simp [finalUploadPath, hga, pyTruthy]
  | error e => left; simp [finalUploadPath, hga]

theorem candidatePath_ne_of_length {dir x y : String} (h : x.length ≠ y.length) :
    candidatePath dir x ≠ candidatePath dir y := by
  intro e
  apply h
  have hl := congrArg String.length e
  simp [candidatePath, String.length_append] at hl
  omega

/-! ### Claim theorems -/

/-- Claim C2: when a colliding object exists, a filename with at least one
`.` resolves to `stem + "_" + timestamp + "." + extension`, where the
extension is exactly the part after the last `.` (encoded by quantifying
over a dot-free `ext`) and the stem is everything before it; a filename
with no `.` resolves to `original + "_" + timestamp`; the timestamp body
is of the form `YYYYMMDD_HHMMSS` (8 digits, `_`, 6 digits), preceded by
`_`. -/
theorem C2_collision_rename_rule :
    (∀ (stem ext : String) (d : DateTime), '.' ∉ ext.data → d.Valid →
      resolveCollision (stem ++ "." ++ ext) (strftimeTs d)
          = stem ++ "_" ++ (tsDate d ++ "_" ++ tsTime d) ++ "." ++ ext
        ∧ (tsDate d).length = 8 ∧ (tsTime d).length = 6
        ∧ (∀ c ∈ (tsDate d).data, c.isDigit = true)
        ∧ (∀ c ∈ (tsTime d).data, c.isDigit = true))
    ∧ (∀ (s : String) (d : DateTime), '.' ∉ s.data → d.Valid →
      resolveCollision s (strftimeTs d)
          = s ++ "_" ++ (tsDate d ++ "_" ++ tsTime d)) := by
  constructor
  · intro stem ext d hext _
    refine ⟨?_, tsDate_length d, tsTime_length d, tsDate_digits d, tsTime_digits d⟩
    rw [resolveCollision_split stem ext _ hext, strftimeTs_eq]
    simp [String.append_assoc]
  · intro s d hs _
    rw [resolveCollision_of_not_mem s _ hs, strftimeTs_eq]
    simp [String.append_assoc]

/-- Witness for C2 at the filenames `report.pdf` and `notes` with the clock
at 2024-01-01 12:00:00. -/
theorem C2_collision_rename_rule_witness :
    resolveCollision ("report" ++ "." ++ "pdf") (strftimeTs dt0)
        = "report" ++ "_" ++ (tsDate dt0 ++ "_" ++ tsTime dt0) ++ "." ++ "pdf"
      ∧ resolveCollision "notes" (strftimeTs dt0)
        = "notes" ++ "_" ++ (tsDate dt0 ++ "_" ++ tsTime dt0) :=
  ⟨(C2_collision_rename_rule.1 "report" "pdf" dt0 (by decide) (by decide)).1,
   C2_collision_rename_rule.2 "notes" dt0 (by decide) (by decide)⟩

/-- Claim C4: when `connect` fails to return a session, `backup_file`
returns `False` immediately with an empty trace: no directory creation, no
existence probe, no local open and no upload call. -/
theorem C4_no_session_no_side_effects (m : BackupManager) (env : Env)
    (fp fn : String) (h : env.connectOk = false) :
    backupFile m env fp fn = (false, []) := by
  simp [backupFile, h]

/-- Witness for C4: a concrete failed-connection run. -/
theorem C4_no_session_no_side_effects_witness :
    backupFile sampleManager envNoConnect "/tmp/f" "report.pdf" = (false, []) :=
  C4_no_session_no_side_effects sampleManager envNoConnect "/tmp/f" "report.pdf" rfl

/-- Claim C6: `backup_file` always yields a boolean outcome — `True`
exactly when a session was obtained and neither the local open nor the
upload raised — and no exception escapes: every error path (connect
failure, open failure, store failure) is converted to `False`, while the
swallowed directory-creation and probe errors do not affect the outcome. -/
theorem C6_boolean_outcome (m : BackupManager) (env : Env) (fp fn : String) :
    (backupFile m env fp fn).fst
      = (env.connectOk && !env.openRaises && !env.storeRaises) := by
  cases hc : env.connectOk <;> cases ho : env.openRaises <;>
    cases hs : env.storeRaises <;> simp [backupFile, backupFileBody, hc, ho, hs]

/-- Counterexample for C8 as stated: with the backup directory `"/"` (the
source default), the candidate path the probe uses is `"/report.pdf"`, not
`backup_directory + "/" + filename = "//report.pdf"`, because the code
strips trailing slashes first. -/
theorem C8_counterexample :
    (backupFile rootManager envNoCollision "/tmp/f" "report.pdf").snd
        = [Event.createDirectory "share" "",
           Event.getAttributes "share" "/report.pdf",
           Event.openLocal "/tmp/f",
           Event.storeFile "share" "/report.pdf",
           Event.close]
      ∧ ("/report.pdf" : String) ≠ "/" ++ "/" ++ "report.pdf" := by
  exact ⟨rfl, by decide⟩

/-- Claim C8 as amended: the candidate remote path computed before the
collision check — the path the existence probe is issued on — equals the
backup directory with trailing `/` stripped, then `"/"`, then the desired
filename. -/
theorem C8_candidate_path (m : BackupManager) (env : Env) (fp fn : String)
    (h : env.connectOk = true) :
    Event.getAttributes m.smb_share (rstripSlash m.backup_directory ++ "/" ++ fn)
      ∈ (backupFile m env fp fn).snd := by
  cases ho : env.openRaises <;> cases hs : env.storeRaises <;>
    simp [backupFile, backupFileBody, h, ho, hs, candidatePath]

/-- Witness for C8's amended theorem on a concrete run. -/
theorem C8_candidate_path_witness :
    Event.getAttributes "share" (rstripSlash "/backups" ++ "/" ++ "report.pdf")
      ∈ (backupFile sampleManager envNoCollision "/tmp/f" "report.pdf").snd :=
  C8_candidate_path sampleManager envNoCollision "/tmp/f" "report.pdf" rfl

/-- Counterexample for C1 as stated: an object exists at the candidate path
`/backups/report.pdf`, but because the existence probe itself errors the
code keeps the original name, and the upload goes to exactly that
pre-existing path — a silent overwrite (the risk §9 of the spec flags). -/
theorem C1_counterexample :
    envProbeError.existsAt (candidatePath sampleManager.backup_directory "report.pdf") = true
      ∧ (backupFile sampleManager envProbeError "/tmp/f" "report.pdf").snd
        = [Event.createDirectory "share" "/backups",
           Event.getAttributes "share" "/backups/report.pdf",
           Event.openLocal "/tmp/f",
           Event.storeFile "share" "/backups/report.pdf",
           Event.close]
      ∧ candidatePath sampleManager.backup_directory "report.pdf" = "/backups/report.pdf" := by
  exact ⟨rfl, rfl, rfl⟩

/-- Claim C1 as amended: whenever the existence probe succeeds in observing
the pre-existing object at the candidate path (the probe call does not
error), the path actually uploaded to differs from the candidate path. -/
theorem C1_no_overwrite_when_probe_succeeds (m : BackupManager) (env : Env)
    (fp fn p : String)
    (hprobe : env.probeRaises = false)
    (hex : env.existsAt (candidatePath m.backup_directory fn) = true)
    (hmem : Event.storeFile m.smb_share p ∈ (backupFile m env fp fn).snd) :
    p ≠ candidatePath m.backup_directory fn := by
  have hfin : finalUploadPath m env fn
      = candidatePath m.backup_directory (resolveCollision fn (strftimeTs env.now)) := by
    simp [finalUploadPath, getAttributesSem, hprobe, hex, pyTruthy]
  cases hc : env.connectOk <;> cases ho : env.openRaises <;>
    cases hs : env.storeRaises <;>
      simp [backupFile, backupFileBody, hc, ho, hs] at hmem
  all_goals
    rw [hmem, hfin]
    refine candidatePath_ne_of_length ?_
    rw [resolveCollision_length, strftimeTs_length]
    omega

/-- Witness for C1's amended theorem: with a working probe and a collision
at `/backups/report.pdf`, the uploaded path is the timestamped one and is
distinct from the colliding path. -/
theorem C1_no_overwrite_when_probe_succeeds_witness :
    candidatePath "/backups" (resolveCollision "report.pdf" (strftimeTs dt0))
      ≠ candidatePath "/backups" "report.pdf" :=
  C1_no_overwrite_when_probe_succeeds sampleManager envProbeOk "/tmp/f" "report.pdf"
    (candidatePath "/backups" (resolveCollision "report.pdf" (strftimeTs dt0)))
    rfl rfl (List.Mem.tail _ (List.Mem.tail _ (List.Mem.tail _ (List.Mem.head _))))

/-- Claim C3: when the existence probe of the candidate path fails — the
`getAttributes` call raises, whether because the object is absent or
because the check itself errored — the original candidate path is kept
unchanged, and it is the path the upload call is issued on. -/
theorem C3_probe_failure_keeps_original (m : BackupManager) (env : Env)
    (fp fn : String)
    (h : getAttributesSem env (candidatePath m.backup_directory fn) = .error ()) :
    finalUploadPath m env fn = candidatePath m.backup_directory fn
      ∧ (env.connectOk = true → env.openRaises = false →
        Event.storeFile m.smb_share (candidatePath m.backup_directory fn)
          ∈ (backupFile m env fp fn).snd) := by
  have hfin : finalUploadPath m env fn = candidatePath m.backup_directory fn := by
    simp [finalUploadPath, h]
  refine ⟨hfin, fun hc ho => ?_⟩
  cases hs : env.storeRaises <;>
    simp [backupFile, backupFileBody, hc, ho, hs, hfin]

/-- Witness for C3: a probe hit by a transport error on a concrete run. -/
theorem C3_probe_failure_keeps_original_witness :
    finalUploadPath sampleManager envProbeError "report.pdf"
        = candidatePath sampleManager.backup_directory "report.pdf"
      ∧ (envProbeError.connectOk = true → envProbeError.openRaises = false →
        Event.storeFile sampleManager.smb_share
            (candidatePath sampleManager.backup_directory "report.pdf")
          ∈ (backupFile sampleManager envProbeError "/tmp/f" "report.pdf").snd) :=
  C3_probe_failure_keeps_original sampleManager envProbeError "/tmp/f" "report.pdf" rfl

/-- Claim C5: whenever a session is obtained, the trace contains exactly
one `close` event, on every exit path — success, upload failure, and an
exception from the local open or the upload (directory-creation and probe
exceptions are swallowed and do not exit). -/
theorem C5_session_closed_exactly_once (m : BackupManager) (env : Env)
    (fp fn : String) (h : env.connectOk = true) :
    (backupFile m env fp fn).snd.filter isClose = [Event.close] := by
  cases ho : env.openRaises <;> cases hs : env.storeRaises <;>
    simp [backupFile, backupFileBody, h, ho, hs, isClose]

/-- Witness for C5: the failed-upload run closes the session once. -/
theorem C5_session_closed_exactly_once_witness :
    (backupFile sampleManager
        ⟨true, false, false, fun _ => false, false, true, dt0⟩
        "/tmp/f" "report.pdf").snd.filter isClose = [Event.close] :=
  C5_session_closed_exactly_once sampleManager
    ⟨true, false, false, fun _ => false, false, true, dt0⟩ "/tmp/f" "report.pdf" rfl

/-- Counterexample for C7 as stated: the backup directory is mandatory per
the data-model sentence (every field except the display-name), yet a
configuration with an empty backup directory — and all four checked
settings present — constructs without an error. -/
theorem C7_counterexample :
    (mkBackupManager cfgEmptyDir).isOk = true
      ∧ cfgEmptyDir.backup_directory = "" := by
  exact ⟨rfl, rfl⟩

/-- Claim C7 as amended: construction raises the fatal configuration error
if and only if one of username, password, server address, or share name is
absent (unset or empty); port and backup directory are never checked.  The
error is raised by the constructor, so a `BackupManager` — which every
transfer requires — exists only after the check passed. -/
theorem C7_missing_settings_iff (c : Config) :
    (mkBackupManager c).isOk = false
      ↔ (falsy c.smb_username || falsy c.smb_password
          || falsy c.smb_server || falsy c.smb_share) = true := by
  cases hu : falsy c.smb_username <;> cases hp : falsy c.smb_password <;>
    cases hs : falsy c.smb_server <;> cases hh : falsy c.smb_share <;>
      simp [mkBackupManager, checkSettings, requiredMissing, hu, hp, hs, hh,
        Except.isOk, Except.toBool]

/-- Claim C9: with a session obtained, the existence probe happens exactly
once, on the original candidate path, and the upload path is either that
candidate or the result of a single timestamp rename of it — no second
probe and no second rename. -/
theorem C9_single_probe_single_rename (m : BackupManager) (env : Env)
    (fp fn : String) (h : env.connectOk = true) :
    (backupFile m env fp fn).snd.filter isProbe
        = [Event.getAttributes m.smb_share (candidatePath m.backup_directory fn)]
      ∧ ∀ p, Event.storeFile m.smb_share p ∈ (backupFile m env fp fn).snd →
          p = candidatePath m.backup_directory fn
            ∨ p = candidatePath m.backup_directory
                (resolveCollision fn (strftimeTs env.now)) := by
  constructor
  · cases ho : env.openRaises <;> cases hs : env.storeRaises <;>
      simp [backupFile, backupFileBody, h, ho, hs, isProbe]
  · intro p hp
    cases ho : env.openRaises <;> cases hs : env.storeRaises <;>
      simp [backupFile, backupFileBody, h, ho, hs] at hp
    all_goals
      rw [hp]
      exact finalUploadPath_cases m env fn

/-- Witness for C9 on a concrete colliding run. -/
theorem C9_single_probe_single_rename_witness :
    (backupFile sampleManager envProbeOk "/tmp/f" "report.pdf").snd.filter isProbe
        = [Event.getAttributes sampleManager.smb_share
            (candidatePath sampleManager.backup_directory "report.pdf")]
      ∧ ∀ p, Event.storeFile sampleManager.smb_share p
            ∈ (backupFile sampleManager envProbeOk "/tmp/f" "report.pdf").snd →
          p = candidatePath sampleManager.backup_directory "report.pdf"
            ∨ p = candidatePath sampleManager.backup_directory
                (resolveCollision "report.pdf" (strftimeTs envProbeOk.now)) :=
  C9_single_probe_single_rename sampleManager envProbeOk "/tmp/f" "report.pdf" rfl

/-- Claim C10: the empty filename is not rejected — the transfer proceeds,
the candidate path is the stripped backup directory followed by a bare
`/`, the rename rule takes the no-extension branch on `""`, and an upload
call is still issued when the local open succeeds. -/
theorem C10_empty_filename (m : BackupManager) (env : Env) (fp : String)
    (h : env.connectOk = true) :
    candidatePath m.backup_directory "" = rstripSlash m.backup_directory ++ "/"
      ∧ rsplitOneDot "" = [""]
      ∧ resolveCollision "" (strftimeTs env.now) = "" ++ strftimeTs env.now
      ∧ Event.getAttributes m.smb_share (rstripSlash m.backup_directory ++ "/")
          ∈ (backupFile m env fp "").snd
      ∧ (env.openRaises = false →
          ∃ p, Event.storeFile m.smb_share p ∈ (backupFile m env fp "").snd) := by
  refine ⟨?_, rfl, rfl, ?_, ?_⟩
  · simp [candidatePath, String.append_empty]
  · cases ho : env.openRaises <;> cases hs : env.storeRaises <;>
      simp [backupFile, backupFileBody, h, ho, hs, candidatePath, String.append_empty]
  · intro ho
    refine ⟨finalUploadPath m env "", ?_⟩
    cases hs : env.storeRaises <;>
      simp [backupFile, backupFileBody, h, ho, hs]

/-- Witness for C10 on a concrete run with an empty filename. -/
theorem C10_empty_filename_witness :
    candidatePath sampleManager.backup_directory ""
        = rstripSlash sampleManager.backup_directory ++ "/"
      ∧ rsplitOneDot "" = [""]
      ∧ resolveCollision "" (strftimeTs envNoCollision.now) = "" ++ strftimeTs envNoCollision.now
      ∧ Event.getAttributes sampleManager.smb_share
            (rstripSlash sampleManager.backup_directory ++ "/")
          ∈ (backupFile sampleManager envNoCollision "/tmp/f" "").snd
      ∧ (envNoCollision.openRaises = false →
          ∃ p, Event.storeFile sampleManager.smb_share p
            ∈ (backupFile sampleManager envNoCollision "/tmp/f" "").snd) :=
  C10_empty_filename sampleManager envNoCollision "/tmp/f" rfl

end BackupBot
